import Mathlib

/-!
Shallow embedding of `src/src/libstd/rt/local_ptr.rs`: a single
thread-local, type-erased slot holding at most one owned pointer-sized
value, with two backends (the `compiled` one backed by a `#[thread_local]`
static cell, and the `native` one backed by an OS keyed-TLS facility), plus
the shared scoped `borrow` helper.

Modelling conventions:
* A stored word is a `Nat`; `0` is the null sentinel.  An owned box (`~T`)
  transmuted into the cell is its heap address, hence a nonzero word; where
  a claim speaks of "an owned value v" the theorems carry `v ≠ 0`.
* `rtabort!` and a failed `assert!` terminate the process; fallible
  operations are embedded as `Except String` with the abort message as the
  error, and a lifecycle run stops at the first abort.
* Each operation is a state transformer; the `compiled` backend's state is
  just the cell's word, the `native` backend's state bundles the process
  globals (`RT_TLS_KEY`, `INITIALIZED`) with the platform keyed-TLS store
  of the current thread and invocation counters for the key create/destroy
  primitives.
-/

namespace LocalPtr

/-- The thread-local cell of the `compiled` backend (`RT_TLS_PTR`): one
pointer-sized word, `0` meaning null/empty. -/
abbrev Slot := Nat

namespace compiled

/-- `compiled::put`: `RT_TLS_PTR = cast::transmute(sched)` — overwrites the
cell with the (nonzero) address of the box, unconditionally. -/
def put (sched : Nat) (_s : Slot) : Slot := sched

/-- `compiled::take`: reads the word, resets the cell to null and returns
the word reinterpreted as the owned box.  The source performs NO null
check here (unlike `native::take`): on an empty cell it transmutes the
null word and still returns normally. -/
def take (s : Slot) : Nat × Slot := (s, 0)

/-- `compiled::unsafe_take`: `cast::transmute(RT_TLS_PTR)` — returns the
word without resetting the cell; again no null check in the source. -/
def unsafe_take (s : Slot) : Nat × Slot := (s, s)

/-- `compiled::exists`: `RT_TLS_PTR.is_not_null()`. -/
def exists' (s : Slot) : Bool := s != 0

/-- `compiled::unsafe_borrow`: aborts with the diagnostic when the cell is
null, otherwise returns the word as a raw pointer. -/
def unsafe_borrow (s : Slot) : Except String Nat :=
  if s = 0 then Except.error "thread-local pointer is null. bogus!"
  else Except.ok s

/-- `compiled::try_unsafe_borrow`: `None` when the cell is null, otherwise
`Some` of the word; no abort path. -/
def try_unsafe_borrow (s : Slot) : Option Nat :=
  if s = 0 then none else some s

end compiled

/-- Outcome of running a caller-supplied closure: a normal return carrying
the closure's result, or an unwind (task failure) propagating out of it. -/
inductive FnOutcome (ρ : Type) where
  | ret : ρ → FnOutcome ρ
  | unwind : FnOutcome ρ

/-- Modelled from the spec: `unstable::finally::Finally` is not under
`src/`.  Per the spec's Scoped Borrow algorithm, "regardless of how step 3
exits — normal return, early return, or unwind/abnormal exit" the dtor
runs before control leaves the scope, and the main closure's outcome is
what propagates to the caller.  `main` is the already-computed outcome of
the main closure, `dtor` the state effect of the cleanup closure. -/
def finallyRun {ρ : Type} (main : FnOutcome ρ) (dtor : Slot → Slot)
    (s : Slot) : FnOutcome ρ × Slot :=
  (main, dtor s)

/-- `borrow` (lines 37–45): takes the value out, hands the callback a raw
view into it, and restores the value via `finally` on every exit path.
The callback `f` receives the slot state it executes in and the raw word;
in this version of the source its result type is unit (`f: |&mut T|`). -/
def borrow (f : Slot → Nat → FnOutcome Unit) (s : Slot) :
    FnOutcome Unit × Slot :=
  let value := (compiled.take s).1
  let during := (compiled.take s).2
  finallyRun (f during value) (fun s2 => compiled.put value s2) during

namespace native

/-- `rt::thread_local_storage::Key`; the static `RT_TLS_KEY` starts at the
sentinel `-1`, and platform-created keys are the nonnegative integers. -/
abbrev Key := Int

/-- Process/thread state of the `native` backend: the statics of the
module, the current thread's keyed-TLS store (a fresh key reads as null),
the platform's next fresh key, and counters for how often the platform
key-creation and key-destruction primitives have been invoked. -/
structure State where
  RT_TLS_KEY : Key
  INITIALIZED : Bool
  tls : Key → Nat
  nextKey : Nat
  createCount : Nat
  destroyCount : Nat
  lockDestroyed : Bool

/-- The pristine process state: sentinel key, not initialized, empty TLS. -/
def freshState : State :=
  { RT_TLS_KEY := -1
    INITIALIZED := false
    tls := fun _ => 0
    nextKey := 0
    createCount := 0
    destroyCount := 0
    lockDestroyed := false }

/-- `native::maybe_tls_key`: `Some RT_TLS_KEY` unless it is the `-1`
sentinel; never aborts. -/
def maybe_tls_key (s : State) : Option Key :=
  if s.RT_TLS_KEY ≠ -1 then some s.RT_TLS_KEY else none

/-- `native::tls_key`: unwraps `maybe_tls_key`, aborting when the key was
never initialized. -/
def tls_key (s : State) : Except String Key :=
  match maybe_tls_key s with
  | some key => Except.ok key
  | none => Except.error "runtime tls key not initialized"

/-- `native::init`: under the lock, create the key and set `INITIALIZED`
only if it is not already set.  The state records one more invocation of
the platform `tls::create` primitive when creation happens; the fresh key
is the platform's next key and reads as null. -/
def init (s : State) : State :=
  if !s.INITIALIZED then
    { s with
      RT_TLS_KEY := Int.ofNat s.nextKey
      tls := fun k => if k = Int.ofNat s.nextKey then 0 else s.tls k
      nextKey := s.nextKey + 1
      createCount := s.createCount + 1
      INITIALIZED := true }
  else s

/-- `native::cleanup`: `assert!(INITIALIZED)` (abort when the flag is not
set), then destroy the key, destroy the lock and clear the flag.  Note the
source does not reset `RT_TLS_KEY` to the sentinel. -/
def cleanup (s : State) : Except String State :=
  if s.INITIALIZED then
    Except.ok
      { s with
        destroyCount := s.destroyCount + 1
        lockDestroyed := true
        INITIALIZED := false }
  else Except.error "assertion failed: INITIALIZED"

/-- `native::put`: resolve the key (abort when uninitialized), then
`tls::set(key, void_ptr)`. -/
def put (sched : Nat) (s : State) : Except String State := do
  let key ← tls_key s
  Except.ok { s with tls := fun k => if k = key then sched else s.tls k }

/-- `native::take`: resolve the key, read the word, abort when it is null,
otherwise null the TLS cell and return the word. -/
def take (s : State) : Except String (Nat × State) := do
  let key ← tls_key s
  let void_ptr := s.tls key
  if void_ptr = 0 then
    Except.error "thread-local pointer is null. bogus!"
  else
    Except.ok (void_ptr, { s with tls := fun k => if k = key then 0 else s.tls k })

/-- `native::unsafe_take`: as `take` but the TLS cell is left untouched. -/
def unsafe_take (s : State) : Except String (Nat × State) := do
  let key ← tls_key s
  let void_ptr := s.tls key
  if void_ptr = 0 then
    Except.error "thread-local pointer is null. bogus!"
  else
    Except.ok (void_ptr, s)

/-- `native::exists`: false when the key was never created, otherwise
whether the TLS word is non-null; never aborts. -/
def exists' (s : State) : Bool :=
  match maybe_tls_key s with
  | some key => s.tls key != 0
  | none => false

/-- `native::unsafe_borrow`: resolve the key (abort when uninitialized),
abort when the word is null, otherwise return it as a raw pointer. -/
def unsafe_borrow (s : State) : Except String Nat := do
  let key ← tls_key s
  let void_ptr := s.tls key
  if void_ptr = 0 then
    Except.error "thread-local pointer is null. bogus!"
  else
    Except.ok void_ptr

/-- `native::try_unsafe_borrow`: `None` when the key was never created or
the word is null, otherwise `Some` of the word; no abort path. -/
def try_unsafe_borrow (s : State) : Option Nat :=
  match maybe_tls_key s with
  | some key =>
    let void_ptr := s.tls key
    if void_ptr = 0 then none else some void_ptr
  | none => none

/-- A lifecycle call on the `native` backend: `init()` or `cleanup()`. -/
inductive LifeOp where
  | init : LifeOp
  | cleanup : LifeOp
deriving DecidableEq, BEq

/-- Run a sequence of lifecycle calls from a state.  A failed
`assert!(INITIALIZED)` in `cleanup` terminates the process: the run stops
there and later calls never happen. -/
def runOps : List LifeOp → State → State
  | [], s => s
  | LifeOp.init :: rest, s => runOps rest (init s)
  | LifeOp.cleanup :: rest, s =>
    match cleanup s with
    | Except.ok s1 => runOps rest s1
    | Except.error _ => s

/-- Lifecycle sequences containing no `init()` call at all. -/
def noInit : List LifeOp → Bool
  | [] => true
  | LifeOp.init :: _ => false
  | LifeOp.cleanup :: rest => noInit rest

/-- Lifecycle sequences in which no `init()` call follows a `cleanup()`
call (cleanup is a process-shutdown-time operation). -/
def noInitAfterCleanup : List LifeOp → Bool
  | [] => true
  | LifeOp.init :: rest => noInitAfterCleanup rest
  | LifeOp.cleanup :: rest => noInit rest

end native

/-- A reachable state of the `native` backend in which the key has been
created (key `0`) and a value with word `1` has been stored: the state
after `init()` and `put` of a box at address `1` on a fresh process. -/
def sampleFull : native.State :=
  { RT_TLS_KEY := 0
    INITIALIZED := true
    tls := fun k => if k = 0 then 1 else 0
    nextKey := 1
    createCount := 1
    destroyCount := 0
    lockDestroyed := false }

/-! ## Claim theorems -/

/-- C1 (round trip): for any owned value `v` (a nonzero word) and either
backend, `put(v); take()` returns a value observationally identical to `v`
and leaves the slot empty (`exists()` is false).  For the keyed backend the
statement is relative to a state whose key has been initialized, as the
spec requires `init()` before any other operation there. -/
theorem put_take_round_trip (v : Nat) (s : Slot) (t : native.State)
    (hv : v ≠ 0) (ht : t.RT_TLS_KEY ≠ -1) :
    ((compiled.take (compiled.put v s)).1 = v ∧
      compiled.exists' (compiled.take (compiled.put v s)).2 = false) ∧
    ∃ t1 t2 : native.State,
      native.put v t = Except.ok t1 ∧
      native.take t1 = Except.ok (v, t2) ∧
      native.exists' t2 = false := by
  refine ⟨⟨rfl, rfl⟩, ?_⟩
  refine ⟨{ t with tls := fun k => if k = t.RT_TLS_KEY then v else t.tls k },
          { t with tls := fun k => if k = t.RT_TLS_KEY then 0 else
              (if k = t.RT_TLS_KEY then v else t.tls k) }, ?_, ?_, ?_⟩
  · simp [native.put, native.tls_key, native.maybe_tls_key, ht, bind,
      Except.bind]
  · simp [native.take, native.tls_key, native.maybe_tls_key, ht, hv, bind,
      Except.bind]
  · simp [native.exists', native.maybe_tls_key, ht]

/-- C1 witness: the round trip at word `1` on an empty `compiled` cell and
on a freshly initialized `native` state. -/
theorem put_take_round_trip_witness :
    (1 : Nat) ≠ 0 ∧ (native.init native.freshState).RT_TLS_KEY ≠ -1 ∧
    (((compiled.take (compiled.put 1 0)).1 = 1 ∧
      compiled.exists' (compiled.take (compiled.put 1 0)).2 = false) ∧
    ∃ t1 t2 : native.State,
      native.put 1 (native.init native.freshState) = Except.ok t1 ∧
      native.take t1 = Except.ok (1, t2) ∧
      native.exists' t2 = false) :=
  ⟨by decide, by decide,
    put_take_round_trip 1 0 (native.init native.freshState)
      (by decide) (by decide)⟩

/-- C2 counterexample: the claim says that on EVERY backend `take()` on an
empty slot aborts the process and never returns normally; but the Direct
backend's `compiled::take` performs no null check — on the empty cell it
returns normally, yielding the transmuted null word and resetting the
cell. -/
theorem compiled_take_empty_returns : compiled.take 0 = (0, 0) := rfl

/-- C2 (amended): on the Keyed backend `take()` on an empty slot aborts
with the "thread-local pointer is null" diagnostic; the Direct backend's
`take()` checks nothing and returns the cell's word (null included)
unchecked, resetting the cell. -/
theorem take_empty_aborts_keyed_backend (t : native.State) (s : Slot)
    (ht : t.RT_TLS_KEY ≠ -1) (hempty : t.tls t.RT_TLS_KEY = 0) :
    native.take t = Except.error "thread-local pointer is null. bogus!" ∧
    compiled.take s = (s, 0) := by
  refine ⟨?_, rfl⟩
  simp [native.take, native.tls_key, native.maybe_tls_key, ht, hempty, bind,
    Except.bind]

/-- C2 witness: the empty slot of a freshly initialized `native` state
makes `take` abort, while `compiled.take` on the empty cell returns. -/
theorem take_empty_aborts_keyed_backend_witness :
    (native.init native.freshState).RT_TLS_KEY ≠ -1 ∧
    (native.init native.freshState).tls
      (native.init native.freshState).RT_TLS_KEY = 0 ∧
    (native.take (native.init native.freshState) =
      Except.error "thread-local pointer is null. bogus!" ∧
     compiled.take 0 = (0, 0)) :=
  ⟨by decide, by decide,
    take_empty_aborts_keyed_backend (native.init native.freshState) 0
      (by decide) (by decide)⟩

/-- C3 (scoped borrow restoration): for any callback `f` and any non-empty
slot with resident word `v`, `borrow f` runs `f` in the emptied slot (its
first argument is the slot state during the call, and it is `0`), restores
the slot to `v` on every exit path — the final state is `v` whether `f`
returns normally or unwinds, since the equation holds for every `f` — and
propagates `f`'s outcome. -/
theorem borrow_restores (f : Slot → Nat → FnOutcome Unit) (v : Slot)
    (hv : v ≠ 0) : borrow f v = (f 0 v, v) := rfl

/-- C3 witness: a callback that unwinds, run on a slot holding word `7`:
the slot still holds `7` after the abnormal exit propagates. -/
theorem borrow_restores_witness :
    (7 : Slot) ≠ 0 ∧
    borrow (fun _ _ => FnOutcome.unwind) 7 = (FnOutcome.unwind, 7) :=
  ⟨by decide, borrow_restores (fun _ _ => FnOutcome.unwind) 7 (by decide)⟩

/-- C4 counterexample: the claim says that on EVERY backend `unsafe_take()`
on an empty slot is a fatal abort; but the Direct backend's
`compiled::unsafe_take` performs no null check — on the empty cell it
returns normally with the transmuted null word. -/
theorem compiled_unsafe_take_empty_returns :
    compiled.unsafe_take 0 = (0, 0) := rfl

/-- C4 (amended): on the Keyed backend `unsafe_take()` on an empty slot
aborts with the diagnostic; the Direct backend's `unsafe_take()` checks
nothing and returns the cell's word (null included) with the cell left
untouched. -/
theorem unsafe_take_empty_aborts_keyed_backend (t : native.State) (s : Slot)
    (ht : t.RT_TLS_KEY ≠ -1) (hempty : t.tls t.RT_TLS_KEY = 0) :
    native.unsafe_take t =
      Except.error "thread-local pointer is null. bogus!" ∧
    compiled.unsafe_take s = (s, s) := by
  refine ⟨?_, rfl⟩
  simp [native.unsafe_take, native.tls_key, native.maybe_tls_key, ht, hempty,
    bind, Except.bind]

/-- C4 witness: `unsafe_take` on the empty slot of a freshly initialized
`native` state aborts, while `compiled.unsafe_take` returns. -/
theorem unsafe_take_empty_aborts_keyed_backend_witness :
    (native.init native.freshState).RT_TLS_KEY ≠ -1 ∧
    (native.init native.freshState).tls
      (native.init native.freshState).RT_TLS_KEY = 0 ∧
    (native.unsafe_take (native.init native.freshState) =
      Except.error "thread-local pointer is null. bogus!" ∧
     compiled.unsafe_take 0 = (0, 0)) :=
  ⟨by decide, by decide,
    unsafe_take_empty_aborts_keyed_backend (native.init native.freshState) 0
      (by decide) (by decide)⟩

/-- C5 (unsafe_take leaves the slot word unchanged): on a non-empty slot,
`unsafe_take()` returns the resident word with the stored word not reset —
the post-state equals the pre-state — so `exists()` still reports true
until the next write. -/
theorem unsafe_take_preserves_slot (s : Slot) (t : native.State)
    (hs : s ≠ 0) (ht : t.RT_TLS_KEY ≠ -1)
    (hv : t.tls t.RT_TLS_KEY ≠ 0) :
    (compiled.unsafe_take s = (s, s) ∧ compiled.exists' s = true) ∧
    (native.unsafe_take t = Except.ok (t.tls t.RT_TLS_KEY, t) ∧
      native.exists' t = true) := by
  refine ⟨⟨rfl, ?_⟩, ?_, ?_⟩
  · simp [compiled.exists', hs]
  · simp [native.unsafe_take, native.tls_key, native.maybe_tls_key, ht, hv,
      bind, Except.bind]
  · simp [native.exists', native.maybe_tls_key, ht, hv]

/-- C5 witness: on a `compiled` cell holding `1` and a `native` state whose
TLS word at the key is `1`, `unsafe_take` leaves everything in place. -/
theorem unsafe_take_preserves_slot_witness :
    (1 : Slot) ≠ 0 ∧ sampleFull.RT_TLS_KEY ≠ -1 ∧
    sampleFull.tls sampleFull.RT_TLS_KEY ≠ 0 ∧
    ((compiled.unsafe_take 1 = (1, 1) ∧ compiled.exists' 1 = true) ∧
     (native.unsafe_take sampleFull =
        Except.ok (sampleFull.tls sampleFull.RT_TLS_KEY, sampleFull) ∧
      native.exists' sampleFull = true)) :=
  ⟨by decide, by decide, by decide,
    unsafe_take_preserves_slot 1 sampleFull (by decide) (by decide)
      (by decide)⟩

/-- C9 (borrow returns the callback's result): whenever the callback `f`
returns normally with result `r` (of the callback result type of this
version of the source, unit), `borrow f` hands that result back to its
caller.  `f 0 s` is the outcome of `f` run in the emptied slot on the
taken word. -/
theorem borrow_returns_callback_result (f : Slot → Nat → FnOutcome Unit)
    (s : Slot) (r : Unit) (h : f 0 s = FnOutcome.ret r) :
    (borrow f s).1 = FnOutcome.ret r := h

/-- C9 witness: a callback returning `()` on a slot holding word `5`. -/
theorem borrow_returns_callback_result_witness :
    (fun (_ : Slot) (_ : Nat) => FnOutcome.ret ()) 0 5 = FnOutcome.ret () ∧
    (borrow (fun _ _ => FnOutcome.ret ()) 5).1 = FnOutcome.ret () :=
  ⟨rfl, borrow_returns_callback_result (fun _ _ => FnOutcome.ret ()) 5 () rfl⟩

/-- C6 (emptiness contract): `exists()` is false immediately after a
successful `take()` and true immediately after `put(v)`, on both backends
(the keyed one relative to an initialized key, and a successful `take`). -/
theorem emptiness_contract (v : Nat) (s : Slot) (t : native.State)
    (hv : v ≠ 0) (ht : t.RT_TLS_KEY ≠ -1) :
    (compiled.exists' (compiled.take s).2 = false ∧
     compiled.exists' (compiled.put v s) = true) ∧
    ((∀ w t1, native.take t = Except.ok (w, t1) →
        native.exists' t1 = false) ∧
     (∀ t1, native.put v t = Except.ok t1 → native.exists' t1 = true)) := by
  refine ⟨⟨rfl, ?_⟩, ?_, ?_⟩
  · simp [compiled.put, compiled.exists', hv]
  · intro w t1 h
    by_cases h0 : t.tls t.RT_TLS_KEY = 0
    · simp [native.take, native.tls_key, native.maybe_tls_key, ht, h0, bind,
        Except.bind] at h
    · simp [native.take, native.tls_key, native.maybe_tls_key, ht, h0, bind,
        Except.bind] at h
      obtain ⟨h1, h2⟩ := h
      subst h2
      simp [native.exists', native.maybe_tls_key, ht]
  · intro t1 h
    simp [native.put, native.tls_key, native.maybe_tls_key, ht, bind,
      Except.bind] at h
    subst h
    simp [native.exists', native.maybe_tls_key, ht, hv]

/-- C6 witness: the contract at word `1`, on a `compiled` cell holding `1`
and on the `native` state holding word `1` under key `0`. -/
theorem emptiness_contract_witness :
    (1 : Nat) ≠ 0 ∧ sampleFull.RT_TLS_KEY ≠ -1 ∧
    ((compiled.exists' (compiled.take 1).2 = false ∧
      compiled.exists' (compiled.put 1 1) = true) ∧
     ((∀ w t1, native.take sampleFull = Except.ok (w, t1) →
         native.exists' t1 = false) ∧
      (∀ t1, native.put 1 sampleFull = Except.ok t1 →
         native.exists' t1 = true))) :=
  ⟨by decide, by decide,
    emptiness_contract 1 1 sampleFull (by decide) (by decide)⟩

/-- C7 (non-fatal empty peek): `try_unsafe_borrow()` is a total,
`Option`-valued operation on both backends — no abort path exists in its
source.  It returns `none` on an empty slot (or, on the keyed backend, an
uncreated key) and a pointer to the resident word otherwise. -/
theorem try_unsafe_borrow_nonfatal (s : Slot) (t : native.State) :
    (s = 0 → compiled.try_unsafe_borrow s = none) ∧
    (s ≠ 0 → compiled.try_unsafe_borrow s = some s) ∧
    (t.RT_TLS_KEY = -1 → native.try_unsafe_borrow t = none) ∧
    (t.RT_TLS_KEY ≠ -1 → t.tls t.RT_TLS_KEY = 0 →
      native.try_unsafe_borrow t = none) ∧
    (t.RT_TLS_KEY ≠ -1 → t.tls t.RT_TLS_KEY ≠ 0 →
      native.try_unsafe_borrow t = some (t.tls t.RT_TLS_KEY)) := by
  refine ⟨?_, ?_, ?_, ?_, ?_⟩
  · intro h; simp [compiled.try_unsafe_borrow, h]
  · intro h; simp [compiled.try_unsafe_borrow, h]
  · intro h; simp [native.try_unsafe_borrow, native.maybe_tls_key, h]
  · intro h h0
    simp [native.try_unsafe_borrow, native.maybe_tls_key, h, h0]
  · intro h h0
    simp [native.try_unsafe_borrow, native.maybe_tls_key, h, h0]

/-- C7 witness: the empty `compiled` cell and the uninitialized and full
`native` states, each answered without an abort. -/
theorem try_unsafe_borrow_nonfatal_witness :
    compiled.try_unsafe_borrow 0 = none ∧
    native.try_unsafe_borrow native.freshState = none ∧
    native.try_unsafe_borrow sampleFull =
      some (sampleFull.tls sampleFull.RT_TLS_KEY) :=
  ⟨(try_unsafe_borrow_nonfatal 0 native.freshState).1 rfl,
   (try_unsafe_borrow_nonfatal 0 native.freshState).2.2.1 rfl,
   (try_unsafe_borrow_nonfatal 0 sampleFull).2.2.2.2 (by decide) (by decide)⟩

/-- C10 (implicit pre-init tolerance of the keyed backend): with the key
never initialized (`RT_TLS_KEY` still the `-1` sentinel), `exists()`
returns false and `try_unsafe_borrow()` returns `none` — both go through
the non-aborting `maybe_tls_key` path — while `take`, `put`, `unsafe_take`
and `unsafe_borrow` abort with "runtime tls key not initialized". -/
theorem keyed_pre_init_tolerance (t : native.State) (v : Nat)
    (h : t.RT_TLS_KEY = -1) :
    native.exists' t = false ∧
    native.try_unsafe_borrow t = none ∧
    native.take t = Except.error "runtime tls key not initialized" ∧
    native.put v t = Except.error "runtime tls key not initialized" ∧
    native.unsafe_take t = Except.error "runtime tls key not initialized" ∧
    native.unsafe_borrow t =
      Except.error "runtime tls key not initialized" := by
  refine ⟨?_, ?_, ?_, ?_, ?_, ?_⟩ <;>
    simp [native.exists', native.try_unsafe_borrow, native.take, native.put,
      native.unsafe_take, native.unsafe_borrow, native.tls_key,
      native.maybe_tls_key, h, bind, Except.bind]

/-- C10 witness: the pristine process state, before any `init()`. -/
theorem keyed_pre_init_tolerance_witness :
    native.freshState.RT_TLS_KEY = -1 ∧
    (native.exists' native.freshState = false ∧
     native.try_unsafe_borrow native.freshState = none ∧
     native.take native.freshState =
       Except.error "runtime tls key not initialized" ∧
     native.put 1 native.freshState =
       Except.error "runtime tls key not initialized" ∧
     native.unsafe_take native.freshState =
       Except.error "runtime tls key not initialized" ∧
     native.unsafe_borrow native.freshState =
       Except.error "runtime tls key not initialized") :=
  ⟨rfl, keyed_pre_init_tolerance native.freshState 1 rfl⟩

/-- States in which the key lifecycle is still on track: nothing destroyed
yet, and the creation count is `1` or `0` according to whether
`INITIALIZED` is set. -/
def GoodPre (s : native.State) : Prop :=
  s.destroyCount = 0 ∧
  s.createCount = (if s.INITIALIZED then 1 else 0)

theorem init_preserves_goodPre (s : native.State) (h : GoodPre s) :
    GoodPre (native.init s) := by
  obtain ⟨h1, h2⟩ := h
  by_cases hI : s.INITIALIZED
  · have heq : native.init s = s := by simp [native.init, hI]
    rw [heq]; exact ⟨h1, h2⟩
  · have h2z : s.createCount = 0 := by simpa [hI] using h2
    constructor
    · simpa [native.init, hI] using h1
    · simp [native.init, hI, h2z]

theorem runOps_noInit_uninit (ops : List native.LifeOp) (s : native.State)
    (hops : native.noInit ops = true) (hs : s.INITIALIZED = false) :
    native.runOps ops s = s := by
  cases ops with
  | nil => rfl
  | cons op rest =>
    cases op with
    | init => simp [native.noInit] at hops
    | cleanup => simp [native.runOps, native.cleanup, hs]

theorem runOps_counts (ops : List native.LifeOp) :
    ∀ s : native.State, native.noInitAfterCleanup ops = true → GoodPre s →
      (native.runOps ops s).createCount ≤ 1 ∧
      (native.runOps ops s).destroyCount ≤ 1 := by
  induction ops with
  | nil =>
    intro s _ hg
    obtain ⟨h1, h2⟩ := hg
    constructor
    · show s.createCount ≤ 1
      rw [h2]; split <;> simp
    · show s.destroyCount ≤ 1
      simp [h1]
  | cons op rest ih =>
    intro s hops hg
    cases op with
    | init =>
      have hops' : native.noInitAfterCleanup rest = true := by
        simpa [native.noInitAfterCleanup] using hops
      have hstep := ih (native.init s) hops' (init_preserves_goodPre s hg)
      simpa [native.runOps] using hstep
    | cleanup =>
      obtain ⟨h1, h2⟩ := hg
      have hrest : native.noInit rest = true := by
        simpa [native.noInitAfterCleanup] using hops
      by_cases hI : s.INITIALIZED
      · have hrun : native.runOps (native.LifeOp.cleanup :: rest) s =
            { s with destroyCount := s.destroyCount + 1,
                     lockDestroyed := true, INITIALIZED := false } := by
          simp only [native.runOps, native.cleanup, hI, if_true]
          exact runOps_noInit_uninit rest _ hrest rfl
        rw [hrun]
        have h2o : s.createCount = 1 := by simpa [hI] using h2
        simp [h1, h2o]
      · have hrun : native.runOps (native.LifeOp.cleanup :: rest) s = s := by
          simp [native.runOps, native.cleanup, hI]
        rw [hrun]
        have h2z : s.createCount = 0 := by simpa [hI] using h2
        simp [h1, h2z]

/-- C8 counterexample: the claim quantifies over ANY sequence of `init()`
and `cleanup()` calls, but `cleanup()` clears `INITIALIZED` without any
latch, so the sequence `init(); cleanup(); init()` invokes the platform
key-creation primitive twice. -/
theorem key_lifecycle_counterexample :
    ¬ ((native.runOps [native.LifeOp.init, native.LifeOp.cleanup,
          native.LifeOp.init] native.freshState).createCount ≤ 1 ∧
       (native.runOps [native.LifeOp.init, native.LifeOp.cleanup,
          native.LifeOp.init] native.freshState).destroyCount ≤ 1) := by
  decide

/-- C8 (amended): over any sequence of `init()` and `cleanup()` calls in
which no `init()` follows a `cleanup()` (cleanup being a
process-shutdown-time operation), the platform key-creation primitive is
invoked at most once and the key-destruction primitive at most once; in
particular repeated `init()` calls create the key only on the first
call. -/
theorem key_lifecycle_at_most_once (ops : List native.LifeOp)
    (h : native.noInitAfterCleanup ops = true) :
    (native.runOps ops native.freshState).createCount ≤ 1 ∧
    (native.runOps ops native.freshState).destroyCount ≤ 1 :=
  runOps_counts ops native.freshState h ⟨rfl, rfl⟩

/-- C8 witness: two `init()` calls then one `cleanup()`: one creation, one
destruction. -/
theorem key_lifecycle_at_most_once_witness :
    native.noInitAfterCleanup [native.LifeOp.init, native.LifeOp.init,
      native.LifeOp.cleanup] = true ∧
    ((native.runOps [native.LifeOp.init, native.LifeOp.init,
        native.LifeOp.cleanup] native.freshState).createCount ≤ 1 ∧
     (native.runOps [native.LifeOp.init, native.LifeOp.init,
        native.LifeOp.cleanup] native.freshState).destroyCount ≤ 1) :=
  ⟨by decide, key_lifecycle_at_most_once _ (by decide)⟩

end LocalPtr
